import Mathlib

/-!
# Verification of the CineBanana Studio prompt/request pipeline

Shallow embedding of the core logic of the repository:

* `src/services/geminiService.ts` — the prompt composer `constructPrompt`,
  the request part lists built by `generateImage` and `editImage`, and
  `extractImageFromResponse`;
* `src/unnamed/part_001` (`InteractiveCamera`) — the camera-state-to-description
  geometry: distance/lens bands, azimuth classification, and the framing
  (composition) check;
* the generation-history lifecycle of the application component
  (`src/types.ts`, `handleGenerate` / `setHistory`).

JavaScript `string | undefined` fields are modelled as `Option String`; the
JavaScript truthiness test used by the source (`if (config.field)`) is `truthy`
below (undefined and the empty string are falsy).  JavaScript float arithmetic
in the camera widget is idealised as real arithmetic.
-/

/-- The optional photographic triple of `GenerationConfig`
(`src/types.ts`): lighting, camera (lens) and depth-of-field choices. -/
structure PhotographicConfig where
  lighting : Option String
  camera : Option String
  depth : Option String
deriving DecidableEq

/-- The per-request configuration `GenerationConfig` (`src/types.ts`), with the
fields read by `constructPrompt`, `generateImage` and `editImage`. -/
structure GenerationConfig where
  aspectRatio : String
  modelTier : String
  resolution : Option String
  useGrounding : Bool
  style : Option String
  photographic : Option PhotographicConfig
  consistencyStrength : Option String
  characterNames : Option (List String)
  enhancePhysics : Bool
  sketchImage : Option String
  sketchPerspective : Option String
  cameraDescription : Option String
deriving DecidableEq

/-- JavaScript truthiness of a `string | undefined` value: `undefined` and the
empty string are falsy, every other string is truthy. -/
def truthy : Option String → Bool
  | none => false
  | some s => !(s == "")

/-- The `★ MANDATORY CAMERA SETUP` template literal of `constructPrompt`
(`src/services/geminiService.ts` lines 10–14). -/
def mandatoryCameraSetup (desc : String) : String :=
  "\n    ★ MANDATORY CAMERA SETUP:\n    " ++ desc ++
    "\n    INSTRUCTION: You must strictly adhere to this camera perspective. If the user's text prompt implies a different angle, IGNORE the text prompt's angle and use this Camera Setup instead.\n    "

/-- The `STRUCTURE GUIDE` template literal of `constructPrompt`
(`src/services/geminiService.ts` lines 21–25). -/
def structureGuideBlock : String :=
  "\n    STRUCTURE GUIDE:\n    The first image provided is a structural sketch. Use it as a STRICT COMPOSITION GUIDE. \n    Enhance this sketch into a fully rendered, high-quality image, maintaining the exact placement of elements.\n    "

/-- The `SCENE DESCRIPTION` template literal of `constructPrompt`
(`src/services/geminiService.ts` lines 40–43). -/
def sceneDescriptionBlock (prompt : String) : String :=
  "\n  SCENE DESCRIPTION:\n  " ++ prompt ++ "\n  "

/-- The `IMPORTANT FOR CHARACTERS` template literal of `constructPrompt`
(`src/services/geminiService.ts` lines 51–56). -/
def importantForCharactersBlock : String :=
  "\n    IMPORTANT FOR CHARACTERS:\n    - Use the provided reference images ONLY to determine the character's facial features, hair, and clothing details.\n    - DO NOT copy the pose, head angle, or camera distance from the reference images.\n    - The character's pose and angle must be derived strictly from the \"MANDATORY CAMERA SETUP\" and \"SCENE DESCRIPTION\".\n    "

/-- The extra distinctness instruction pushed when more than one character is
selected (`src/services/geminiService.ts` line 59). -/
def distinctnessLine : String :=
  "Ensure each character is distinct and positioned according to the description."

/-- The physics-enhancement instruction (`src/services/geminiService.ts` line 65). -/
def physicsInstruction : String :=
  "PHYSICS: Ensure precise physical interaction. Hands must actively grip objects with visible tension. Objects on ground must have weight. Gravity must be realistic."

/-- The `High` consistency instruction (`src/services/geminiService.ts` line 71). -/
def consistencyHigh : String :=
  "CONSISTENCY: Strictly preserve the identity/face of the characters."

/-- The `Medium` consistency instruction (`src/services/geminiService.ts` line 74). -/
def consistencyMedium : String :=
  "CONSISTENCY: Maintain general character likeness."

/-- The `Low` consistency instruction (`src/services/geminiService.ts` line 77). -/
def consistencyLow : String :=
  "CONSISTENCY: Use reference images as loose inspiration."

/-- `constructPrompt` of `src/services/geminiService.ts` (lines 4–83).  Each
`let parts := parts ++ …` step is one of the source's conditional
`parts.push(…)` blocks, in source order; the result is `parts.join('\n')`. -/
def constructPrompt (prompt : String) (config : GenerationConfig) : String :=
  let parts : List String := []
  -- 1. camera / spatial setup (lines 9–17)
  let parts := parts ++
    (if truthy config.cameraDescription then
      [mandatoryCameraSetup (config.cameraDescription.getD "")]
    else if truthy config.sketchPerspective &&
        !(config.sketchPerspective.getD "" == "None") then
      ["CAMERA PERSPECTIVE: " ++ config.sketchPerspective.getD "" ++ "."]
    else [])
  -- 2. sketch guide instruction (lines 20–26)
  let parts := parts ++ (if truthy config.sketchImage then [structureGuideBlock] else [])
  -- 3. style & atmosphere (lines 29–37)
  let parts := parts ++
    (if truthy config.style && !(config.style.getD "" == "None") then
      ["STYLE: " ++ config.style.getD "" ++ "."]
    else [])
  let parts := parts ++
    (match config.photographic with
    | none => []
    | some ph =>
      (if truthy ph.lighting && !(ph.lighting.getD "" == "None") then
        ["LIGHTING: " ++ ph.lighting.getD "" ++ "."] else []) ++
      (if truthy ph.camera && !(ph.camera.getD "" == "None") then
        ["LENS TYPE: " ++ ph.camera.getD "" ++ "."] else []) ++
      (if truthy ph.depth && !(ph.depth.getD "" == "None") then
        ["DEPTH OF FIELD: " ++ ph.depth.getD "" ++ "."] else []))
  -- 4. core narrative (lines 40–43)
  let parts := parts ++ [sceneDescriptionBlock prompt]
  -- 5. character handling (lines 46–61)
  let parts := parts ++
    (match config.characterNames with
    | none => []
    | some names =>
      if names.length > 0 then
        ["CHARACTERS PRESENT: " ++ String.intercalate ", " names ++ "."] ++
        [importantForCharactersBlock] ++
        (if names.length > 1 then [distinctnessLine] else [])
      else [])
  -- 6. physics & consistency (lines 64–80)
  let parts := parts ++ (if config.enhancePhysics then [physicsInstruction] else [])
  let parts := parts ++
    (match config.consistencyStrength with
    | none => []
    | some s =>
      if !(s == "") then
        if s == "High" then [consistencyHigh]
        else if s == "Medium" then [consistencyMedium]
        else if s == "Low" then [consistencyLow]
        else []
      else [])
  String.intercalate "\n" parts

/-! Claim-side decomposition of the composer into its eight sections, used to
state the fixed section order of the spec. -/

/-- Section (1): camera setup block, or the plain camera-perspective line. -/
def sectionCameraSetup (config : GenerationConfig) : List String :=
  if truthy config.cameraDescription then
    [mandatoryCameraSetup (config.cameraDescription.getD "")]
  else if truthy config.sketchPerspective &&
      !(config.sketchPerspective.getD "" == "None") then
    ["CAMERA PERSPECTIVE: " ++ config.sketchPerspective.getD "" ++ "."]
  else []

/-- Section (2): the sketch structure-guide instruction. -/
def sectionSketchGuide (config : GenerationConfig) : List String :=
  if truthy config.sketchImage then [structureGuideBlock] else []

/-- Section (3): the style line. -/
def sectionStyle (config : GenerationConfig) : List String :=
  if truthy config.style && !(config.style.getD "" == "None") then
    ["STYLE: " ++ config.style.getD "" ++ "."]
  else []

/-- Section (4): the photographic lighting/lens/depth lines, each emitted
independently if set. -/
def sectionPhotographic (config : GenerationConfig) : List String :=
  match config.photographic with
  | none => []
  | some ph =>
    (if truthy ph.lighting && !(ph.lighting.getD "" == "None") then
      ["LIGHTING: " ++ ph.lighting.getD "" ++ "."] else []) ++
    (if truthy ph.camera && !(ph.camera.getD "" == "None") then
      ["LENS TYPE: " ++ ph.camera.getD "" ++ "."] else []) ++
    (if truthy ph.depth && !(ph.depth.getD "" == "None") then
      ["DEPTH OF FIELD: " ++ ph.depth.getD "" ++ "."] else [])

/-- Section (5): the core scene text. -/
def sectionScene (prompt : String) : List String := [sceneDescriptionBlock prompt]

/-- Section (6): character-presence line, pose-decoupling block, and the extra
distinctness line when more than one character is present. -/
def sectionCharacters (config : GenerationConfig) : List String :=
  match config.characterNames with
  | none => []
  | some names =>
    if names.length > 0 then
      ["CHARACTERS PRESENT: " ++ String.intercalate ", " names ++ "."] ++
      [importantForCharactersBlock] ++
      (if names.length > 1 then [distinctnessLine] else [])
    else []

/-- Section (7): the physics-enhancement instruction. -/
def sectionPhysics (config : GenerationConfig) : List String :=
  if config.enhancePhysics then [physicsInstruction] else []

/-- Section (8): the consistency-strength instruction. -/
def sectionConsistency (config : GenerationConfig) : List String :=
  match config.consistencyStrength with
  | none => []
  | some s =>
    if !(s == "") then
      if s == "High" then [consistencyHigh]
      else if s == "Medium" then [consistencyMedium]
      else if s == "Low" then [consistencyLow]
      else []
    else []

/-! ## Request part lists (`generateImage`, `editImage`) -/

/-- A content part of a generation request: an inline base64 image blob or a
text part (`src/services/geminiService.ts`). -/
inductive ContentPart where
  | inlineData (data : String) (mimeType : String)
  | text (s : String)
deriving DecidableEq

/-- Whether a content part is an inline image blob. -/
def ContentPart.isInline : ContentPart → Bool
  | .inlineData _ _ => true
  | .text _ => false

/-- The data-URI prefix stripping
`base64.replace(/^data:image\x5c/(png|jpeg|webp);base64,/, "")` used by
`generateImage` and `editImage`: remove one recognised prefix at the start of
the string, if present.  Stated over the character list of the string so that
it evaluates by kernel reduction. -/
def stripDataUriPrefix (s : String) : String :=
  if ("data:image/png;base64,".data).isPrefixOf s.data then
    ⟨s.data.drop ("data:image/png;base64,".data.length)⟩
  else if ("data:image/jpeg;base64,".data).isPrefixOf s.data then
    ⟨s.data.drop ("data:image/jpeg;base64,".data.length)⟩
  else if ("data:image/webp;base64,".data).isPrefixOf s.data then
    ⟨s.data.drop ("data:image/webp;base64,".data.length)⟩
  else s

/-- The content-part list built by `generateImage`
(`src/services/geminiService.ts` lines 117–143): sketch image first if
present, then the reference images in order, then the text prompt. -/
def generateImageParts (prompt : String) (config : GenerationConfig)
    (referenceImages : List String) : List ContentPart :=
  let parts : List ContentPart := []
  let parts := parts ++
    (if truthy config.sketchImage then
      [ContentPart.inlineData (stripDataUriPrefix (config.sketchImage.getD "")) "image/png"]
    else [])
  let parts := parts ++
    referenceImages.map (fun base64 =>
      ContentPart.inlineData (stripDataUriPrefix base64) "image/png")
  parts ++ [ContentPart.text (constructPrompt prompt config)]

/-- The content-part list built by `editImage`
(`src/services/geminiService.ts` lines 196–210): the current image followed by
the composed prompt text, and nothing else. -/
def editImageParts (base64Image : String) (prompt : String)
    (config : GenerationConfig) : List ContentPart :=
  [ContentPart.inlineData (stripDataUriPrefix base64Image) "image/png",
   ContentPart.text (constructPrompt prompt config)]

/-! ## Response extraction (`extractImageFromResponse`) -/

/-- The `inlineData` payload of a response part. -/
structure InlineData where
  data : String
deriving DecidableEq

/-- One part of a response candidate's content: an optional inline image and an
optional text. -/
structure ResponsePart where
  inlineData : Option InlineData
  text : Option String
deriving DecidableEq

/-- The content of a response candidate. -/
structure CandidateContent where
  parts : List ResponsePart
deriving DecidableEq

/-- One candidate of a generation response. -/
structure Candidate where
  content : CandidateContent
deriving DecidableEq

/-- A generation response: an optional candidate list. -/
structure GenResponse where
  candidates : Option (List Candidate)
deriving DecidableEq

/-- `extractImageFromResponse` of `src/services/geminiService.ts`
(lines 221–239), with `throw` modelled as `Except.error` carrying the thrown
message.  The `for` loop returning on the first `inlineData` part is `find?`
over the first candidate's parts; the text fallback is the source's
`parts.find((p) => p.text)`. -/
def extractImageFromResponse (response : GenResponse) : Except String String :=
  match response.candidates with
  | none => .error "No candidates returned from Gemini."
  | some [] => .error "No candidates returned from Gemini."
  | some (cand :: _) =>
    let parts := cand.content.parts
    match parts.find? (fun p => p.inlineData.isSome) with
    | some p => .ok ("data:image/png;base64," ++ (p.inlineData.getD ⟨""⟩).data)
    | none =>
      match parts.find? (fun p => truthy p.text) with
      | some textPart =>
        .error ("Model returned text instead of image: " ++ textPart.text.getD "")
      | none => .error "No image data found in response."

/-! ## Generation history lifecycle -/

/-- The type tag of a generated asset (`src/types.ts`). -/
inductive AssetType where
  | character
  | scene
deriving DecidableEq

/-- `GeneratedAsset` of `src/types.ts`: a record of one produced image. -/
structure GeneratedAsset where
  id : String
  url : String
  base64 : String
  prompt : String
  timestamp : Nat
  type : AssetType
deriving DecidableEq

/-- The operations the application performs on the history collection: a
successful generation or edit prepends the new asset
(`setHistory(prev => [newAsset, ...prev])`, `src/types.ts` line 247) and the
Clear button empties it (`setHistory([])`, line 845).  No other operation
touches the collection after the initial load. -/
inductive HistoryEvent where
  | generate (asset : GeneratedAsset)
  | clear
deriving DecidableEq

/-- One history update, as performed by the application component. -/
def historyStep (history : List GeneratedAsset) : HistoryEvent → List GeneratedAsset
  | .generate asset => asset :: history
  | .clear => []

/-! ## Theorems: prompt composer -/

/-- C1: `constructPrompt` assembles its output in the fixed section order
(1) camera setup or camera-perspective line, (2) sketch structure guide,
(3) style, (4) photographic lighting/lens/depth, (5) scene text,
(6) characters, (7) physics, (8) consistency; every section whose option is
unset or equals the sentinel `"None"` is omitted; and a config with
`style = "None"`, no photographic, no characters, no consistency setting and
no camera/sketch/physics options yields only the scene-description section. -/
theorem constructPrompt_section_order (prompt : String) (config : GenerationConfig) :
    constructPrompt prompt config =
      String.intercalate "\n"
        (sectionCameraSetup config ++ sectionSketchGuide config ++
          sectionStyle config ++ sectionPhotographic config ++
          sectionScene prompt ++ sectionCharacters config ++
          sectionPhysics config ++ sectionConsistency config) ∧
    ((config.cameraDescription = none →
        config.sketchPerspective = none ∨ config.sketchPerspective = some "None" →
        sectionCameraSetup config = []) ∧
      (config.sketchImage = none → sectionSketchGuide config = []) ∧
      (config.style = none ∨ config.style = some "None" → sectionStyle config = []) ∧
      (config.photographic = none → sectionPhotographic config = []) ∧
      (config.characterNames = none ∨ config.characterNames = some [] →
        sectionCharacters config = []) ∧
      (config.enhancePhysics = false → sectionPhysics config = []) ∧
      (config.consistencyStrength = none → sectionConsistency config = [])) ∧
    (config.cameraDescription = none → config.sketchPerspective = none →
      config.sketchImage = none → config.style = some "None" →
      config.photographic = none → config.characterNames = none →
      config.enhancePhysics = false → config.consistencyStrength = none →
      constructPrompt prompt config = sceneDescriptionBlock prompt) := by
  refine ⟨?_, ⟨?_, ?_, ?_, ?_, ?_, ?_, ?_⟩, ?_⟩
  · simp only [constructPrompt, sectionCameraSetup, sectionSketchGuide, sectionStyle,
      sectionPhotographic, sectionScene, sectionCharacters, sectionPhysics,
      sectionConsistency, List.nil_append, List.append_assoc]
  · intro h1 h2
    rcases h2 with h2 | h2 <;> simp [sectionCameraSetup, truthy, h1, h2]
  · intro h; simp [sectionSketchGuide, truthy, h]
  · rintro (h | h) <;> simp [sectionStyle, truthy, h]
  · intro h; simp [sectionPhotographic, h]
  · rintro (h | h) <;> simp [sectionCharacters, h]
  · intro h; simp [sectionPhysics, h]
  · intro h; simp [sectionConsistency, h]
  · intro h1 h2 h3 h4 h5 h6 h7 h8
    simp only [constructPrompt, truthy, h1, h2, h3, h4, h5, h6, h7, h8]
    rfl

/-- Witness for `constructPrompt_section_order`: the minimal config of the
claim, evaluated concretely — the composed prompt is exactly the
scene-description section. -/
theorem constructPrompt_section_order_witness :
    constructPrompt "a cat"
        { aspectRatio := "1:1", modelTier := "flash", resolution := none,
          useGrounding := false, style := some "None", photographic := none,
          consistencyStrength := none, characterNames := none,
          enhancePhysics := false, sketchImage := none,
          sketchPerspective := none, cameraDescription := none } =
      sceneDescriptionBlock "a cat" :=
  (constructPrompt_section_order "a cat" _).2.2 rfl rfl rfl rfl rfl rfl rfl rfl

/-- C7: the prompt composer is deterministic — two invocations on identical
base text and identical configuration return identical strings. -/
theorem constructPrompt_deterministic (p₁ p₂ : String)
    (c₁ c₂ : GenerationConfig) (hp : p₁ = p₂) (hc : c₁ = c₂) :
    constructPrompt p₁ c₁ = constructPrompt p₂ c₂ := by
  rw [hp, hc]

/-- Witness for `constructPrompt_deterministic` at a concrete input. -/
theorem constructPrompt_deterministic_witness :
    constructPrompt "a dog"
        { aspectRatio := "1:1", modelTier := "pro", resolution := some "2K",
          useGrounding := true, style := some "Noir",
          photographic := some { lighting := some "Neon", camera := none, depth := none },
          consistencyStrength := some "High", characterNames := some ["Ada"],
          enhancePhysics := true, sketchImage := none,
          sketchPerspective := none, cameraDescription := none } =
      constructPrompt "a dog"
        { aspectRatio := "1:1", modelTier := "pro", resolution := some "2K",
          useGrounding := true, style := some "Noir",
          photographic := some { lighting := some "Neon", camera := none, depth := none },
          consistencyStrength := some "High", characterNames := some ["Ada"],
          enhancePhysics := true, sketchImage := none,
          sketchPerspective := none, cameraDescription := none } :=
  constructPrompt_deterministic _ _ _ _ rfl rfl

/-! ## Theorems: request part ordering -/

/-- C2: when a sketch image is present in the config, the content-part list
built by `generateImage` is the sketch image part first, then the supplied
reference images in their original order, then the text prompt last. -/
theorem generateImageParts_sketch_first (prompt : String)
    (config : GenerationConfig) (referenceImages : List String) (sketch : String)
    (hs : config.sketchImage = some sketch) (hne : sketch ≠ "") :
    generateImageParts prompt config referenceImages =
      ContentPart.inlineData (stripDataUriPrefix sketch) "image/png" ::
        (referenceImages.map (fun base64 =>
            ContentPart.inlineData (stripDataUriPrefix base64) "image/png") ++
          [ContentPart.text (constructPrompt prompt config)]) := by
  simp [generateImageParts, truthy, hs, hne]

set_option maxRecDepth 8000 in
/-- Witness for `generateImageParts_sketch_first`: a sketch, two reference
images and a prompt, with the part list evaluated concretely. -/
theorem generateImageParts_sketch_first_witness :
    generateImageParts "a boat"
        { aspectRatio := "1:1", modelTier := "flash", resolution := none,
          useGrounding := false, style := none, photographic := none,
          consistencyStrength := none, characterNames := none,
          enhancePhysics := false, sketchImage := some "data:image/png;base64,SKETCH",
          sketchPerspective := none, cameraDescription := none }
        ["data:image/png;base64,REF1", "REF2"] =
      ContentPart.inlineData "SKETCH" "image/png" ::
        ([ContentPart.inlineData "REF1" "image/png",
          ContentPart.inlineData "REF2" "image/png"] ++
          [ContentPart.text (constructPrompt "a boat"
            { aspectRatio := "1:1", modelTier := "flash", resolution := none,
              useGrounding := false, style := none, photographic := none,
              consistencyStrength := none, characterNames := none,
              enhancePhysics := false,
              sketchImage := some "data:image/png;base64,SKETCH",
              sketchPerspective := none, cameraDescription := none })]) := by
  have h := generateImageParts_sketch_first "a boat"
    { aspectRatio := "1:1", modelTier := "flash", resolution := none,
      useGrounding := false, style := none, photographic := none,
      consistencyStrength := none, characterNames := none,
      enhancePhysics := false, sketchImage := some "data:image/png;base64,SKETCH",
      sketchPerspective := none, cameraDescription := none }
    ["data:image/png;base64,REF1", "REF2"] "data:image/png;base64,SKETCH"
    rfl (by decide)
  rw [h]
  have e1 : stripDataUriPrefix "data:image/png;base64,SKETCH" = "SKETCH" := by decide
  have e2 : stripDataUriPrefix "data:image/png;base64,REF1" = "REF1" := by decide
  have e3 : stripDataUriPrefix "REF2" = "REF2" := by decide
  rw [List.map_cons, List.map_cons, List.map_nil, e1, e2, e3]

/-- C10: the request built by `editImage` always holds exactly two content
parts — the current image with any recognised data-URI prefix stripped,
followed by the composed prompt text — and its only inline image part is the
current image: neither the sketch image nor any reference image is attached
in edit mode, whatever the config holds. -/
theorem editImageParts_exactly_two (base64Image prompt : String)
    (config : GenerationConfig) :
    editImageParts base64Image prompt config =
      [ContentPart.inlineData (stripDataUriPrefix base64Image) "image/png",
        ContentPart.text (constructPrompt prompt config)] ∧
    (editImageParts base64Image prompt config).length = 2 ∧
    (editImageParts base64Image prompt config).filter ContentPart.isInline =
      [ContentPart.inlineData (stripDataUriPrefix base64Image) "image/png"] := by
  refine ⟨rfl, rfl, ?_⟩
  simp [editImageParts, ContentPart.isInline, List.filter]

/-! ## Theorems: response extraction -/

/-- C8: `extractImageFromResponse` succeeds — returning a data URI built from
the first `inlineData` part — exactly when the response has a non-empty
candidate list whose first candidate's parts contain an `inlineData` part;
otherwise it throws, distinguishing an empty or missing candidate list, a
text-only response, and a response with no image part. -/
theorem extractImageFromResponse_spec (response : GenResponse) :
    ((∃ uri, extractImageFromResponse response = .ok uri) ↔
      ∃ cand rest, response.candidates = some (cand :: rest) ∧
        ∃ p ∈ cand.content.parts, p.inlineData.isSome = true) ∧
    (response.candidates = none ∨ response.candidates = some [] →
      extractImageFromResponse response =
        .error "No candidates returned from Gemini.") ∧
    (∀ cand rest, response.candidates = some (cand :: rest) →
      ∀ p d, cand.content.parts.find? (fun q => q.inlineData.isSome) = some p →
        p.inlineData = some d →
        extractImageFromResponse response =
          .ok ("data:image/png;base64," ++ d.data)) ∧
    (∀ cand rest, response.candidates = some (cand :: rest) →
      (∀ p ∈ cand.content.parts, p.inlineData = none) →
      ((∃ p ∈ cand.content.parts, truthy p.text = true) →
        ∃ t, extractImageFromResponse response =
          .error ("Model returned text instead of image: " ++ t)) ∧
      ((∀ p ∈ cand.content.parts, truthy p.text = false) →
        extractImageFromResponse response =
          .error "No image data found in response.")) := by
  obtain ⟨cands⟩ := response
  refine ⟨?_, ?_, ?_, ?_⟩
  · constructor
    · rintro ⟨uri, h⟩
      match hc : cands with
      | none => simp [extractImageFromResponse, hc] at h
      | some [] => simp [extractImageFromResponse, hc] at h
      | some (cand :: rest) =>
        refine ⟨cand, rest, rfl, ?_⟩
        by_contra hnone
        push_neg at hnone
        have hfind : cand.content.parts.find? (fun q => q.inlineData.isSome) = none := by
          rw [List.find?_eq_none]
          intro p hp
          simpa using hnone p hp
        simp only [extractImageFromResponse, hfind] at h
        rcases hfindt : cand.content.parts.find? (fun p => truthy p.text) with _ | tp <;>
          simp [hfindt] at h
    · rintro ⟨cand, rest, hc, p, hp, hinl⟩
      subst hc
      have : (cand.content.parts.find? (fun q => q.inlineData.isSome)).isSome := by
        rw [List.find?_isSome]
        exact ⟨p, hp, hinl⟩
      rcases hfind : cand.content.parts.find? (fun q => q.inlineData.isSome) with _ | q
      · rw [hfind] at this; simp at this
      · exact ⟨"data:image/png;base64," ++ (q.inlineData.getD ⟨""⟩).data,
          by simp [extractImageFromResponse, hfind]⟩
  · rintro (h | h) <;> subst h <;> rfl
  · intro cand rest hc p d hfind hd
    subst hc
    simp [extractImageFromResponse, hfind, hd]
  · intro cand rest hc hnone
    subst hc
    have hfind : cand.content.parts.find? (fun q => q.inlineData.isSome) = none := by
      rw [List.find?_eq_none]
      intro p hp
      simp [hnone p hp]
    constructor
    · rintro ⟨p, hp, ht⟩
      have : (cand.content.parts.find? (fun q => truthy q.text)).isSome := by
        rw [List.find?_isSome]
        exact ⟨p, hp, ht⟩
      rcases hfindt : cand.content.parts.find? (fun q => truthy q.text) with _ | tp
      · rw [hfindt] at this; simp at this
      · exact ⟨tp.text.getD "", by simp [extractImageFromResponse, hfind, hfindt]⟩
    · intro hno
      have hfindt : cand.content.parts.find? (fun q => truthy q.text) = none := by
        rw [List.find?_eq_none]
        intro p hp
        simp [hno p hp]
      simp [extractImageFromResponse, hfind, hfindt]

/-- Witness for `extractImageFromResponse_spec`: concrete responses — an empty
candidate list is rejected with the no-candidates error, and a response whose
first candidate carries an inline part succeeds with its data URI. -/
theorem extractImageFromResponse_spec_witness :
    extractImageFromResponse ⟨some []⟩ =
      .error "No candidates returned from Gemini." ∧
    extractImageFromResponse
        ⟨some [⟨⟨[⟨some ⟨"IMG"⟩, none⟩]⟩⟩]⟩ =
      .ok ("data:image/png;base64," ++ "IMG") :=
  ⟨(extractImageFromResponse_spec ⟨some []⟩).2.1 (Or.inr rfl),
    (extractImageFromResponse_spec _).2.2.1 ⟨⟨[⟨some ⟨"IMG"⟩, none⟩]⟩⟩ [] rfl
      ⟨some ⟨"IMG"⟩, none⟩ ⟨"IMG"⟩ (by decide) rfl⟩

/-! ## Theorems: history lifecycle -/

/-- C9: a successful generation or edit prepends the new asset to the history
(newest first); no history operation changes an existing asset — every element
after a step was already in the history or is the freshly created asset — and
no operation removes a single asset: if any asset disappears, the step was the
whole-history clear, which empties the collection. -/
theorem history_lifecycle :
    (∀ (h : List GeneratedAsset) (a : GeneratedAsset),
      historyStep h (.generate a) = a :: h) ∧
    (∀ (h : List GeneratedAsset) (e : HistoryEvent) (x : GeneratedAsset),
      x ∈ historyStep h e → x ∈ h ∨ e = .generate x) ∧
    (∀ (h : List GeneratedAsset) (e : HistoryEvent),
      (∃ x ∈ h, x ∉ historyStep h e) → historyStep h e = []) := by
  refine ⟨fun h a => rfl, ?_, ?_⟩
  · intro h e x hx
    cases e with
    | generate a =>
      simp only [historyStep, List.mem_cons] at hx
      rcases hx with hx | hx
      · exact Or.inr (by rw [hx])
      · exact Or.inl hx
    | clear => simp [historyStep] at hx
  · intro h e hx
    cases e with
    | generate a =>
      exfalso
      obtain ⟨x, hmem, hnot⟩ := hx
      exact hnot (by simp [historyStep, hmem])
    | clear => rfl

/-- Witness for `history_lifecycle`: a concrete asset prepended to an empty
history is recognised as the freshly generated asset. -/
theorem history_lifecycle_witness :
    let a : GeneratedAsset :=
      { id := "1-abc", url := "data:image/png;base64,IMG",
        base64 := "data:image/png;base64,IMG", prompt := "a cat",
        timestamp := 1700000000, type := .scene }
    a ∈ ([] : List GeneratedAsset) ∨ HistoryEvent.generate a = .generate a :=
  history_lifecycle.2.1 [] (.generate _) _ (by simp [historyStep])

/-! ## Camera geometry (`InteractiveCamera`, `src/unnamed/part_001`)

The widget computes, from a camera state `(x, y, height, rotation)`, a lens
band from the planar distance to the subject at `(50, 50)`, an azimuth label
from `Math.atan2`, and a composition label from the difference between the
actual rotation and the rotation that would aim at the subject.  JavaScript
float arithmetic is idealised as real arithmetic. -/

/-- `Math.atan2(y, x)`: the argument of the point `(x, y)`, in `(-π, π]`. -/
noncomputable def atan2 (y x : ℝ) : ℝ := Complex.arg ⟨x, y⟩

/-- The lens/shot/physics triple of the band `distance < 12`
(`src/unnamed/part_001` lines 42–45). -/
def ultraWideTriple : String × String × String :=
  ("14mm-18mm Ultra-Wide Macro Lens", "Extreme Close-Up",
    "Strong barrel distortion. Subject features closest to camera appear exaggerated. Very shallow depth of field.")

/-- The triple of the band `12 ≤ distance < 25` (lines 46–49). -/
def wideAngleTriple : String × String × String :=
  ("24mm-35mm Wide Angle Lens", "Close-Up",
    "Dynamic perspective with slight foreshortening. Background feels pushed back.")

/-- The triple of the band `25 ≤ distance < 45` (lines 50–53). -/
def primeLensTriple : String × String × String :=
  ("50mm Prime Lens", "Medium Shot (Waist Up)",
    "Natural human vision perspective. Minimal distortion. Accurate proportions.")

/-- The triple of the band `45 ≤ distance < 65` (lines 54–57). -/
def portraitTelephotoTriple : String × String × String :=
  ("85mm Portrait Telephoto Lens", "Full Body Shot / Cowboy Shot",
    "Spatial compression active. Background appears larger and closer to the subject. Flattering, flattened features.")

/-- The triple of the band `65 ≤ distance` (lines 58–62). -/
def longTelephotoTriple : String × String × String :=
  ("200mm+ Long Telephoto Lens", "Wide Shot / Long Shot",
    "High spatial compression. Perspective is flattened; foreground and background elements appear stacked. Detached observer feel.")

/-- `Math.sqrt(dx*dx + dy*dy)` with `dx = x - 50`, `dy = y - 50`
(`src/unnamed/part_001` lines 30–34). -/
noncomputable def distRaw (x y : ℝ) : ℝ :=
  Real.sqrt ((x - 50) * (x - 50) + (y - 50) * (y - 50))

/-- `Math.min(distRaw, 100)` (line 35). -/
noncomputable def cameraDistance (x y : ℝ) : ℝ := min (distRaw x y) 100

/-- The lens-band if-chain on the clamped distance (lines 42–62).  Every
branch assigns all three values, so the initial defaults of the source are
dead and the chain is total. -/
noncomputable def lensTriple (distance : ℝ) : String × String × String :=
  if distance < 12 then ultraWideTriple
  else if distance < 25 then wideAngleTriple
  else if distance < 45 then primeLensTriple
  else if distance < 65 then portraitTelephotoTriple
  else longTelephotoTriple

/-- The (lensType, shotType, physicsNote) triple for a camera position. -/
noncomputable def cameraLens (x y : ℝ) : String × String × String :=
  lensTriple (cameraDistance x y)

/-- `atan2(dy, dx) * (180 / Math.PI)` (lines 68–69). -/
noncomputable def angleDeg (x y : ℝ) : ℝ :=
  atan2 (y - 50) (x - 50) * (180 / Real.pi)

/-- The azimuth classification if-chain (lines 72–76). -/
noncomputable def viewSideOfAngle (angle : ℝ) : String :=
  if angle > 45 ∧ angle < 135 then "Front View"
  else if angle ≥ 135 ∨ angle ≤ -135 then "Left Side Profile"
  else if angle < -45 ∧ angle > -135 then "Back View"
  else "Right Side Profile"

/-- The azimuth label of a camera position (lines 64–76). -/
noncomputable def viewSideOf (x y : ℝ) : String := viewSideOfAngle (angleDeg x y)

/-- The rotation that would aim the camera at the subject:
`atan2(50 - y, 50 - x) * (180 / Math.PI) + 90` (lines 108–114). -/
noncomputable def idealRotDeg (x y : ℝ) : ℝ :=
  atan2 (50 - y) (50 - x) * (180 / Real.pi) + 90

/-- Truncation toward zero, as used by the JavaScript `%` operator. -/
noncomputable def jsTrunc (x : ℝ) : ℤ := if 0 ≤ x then ⌊x⌋ else ⌈x⌉

/-- The JavaScript remainder `a % b`: `a - b * trunc(a / b)`. -/
noncomputable def jsMod (a b : ℝ) : ℝ := a - b * (jsTrunc (a / b) : ℝ)

/-- `(r % 360 + 360) % 360` (lines 116–117). -/
noncomputable def norm360 (r : ℝ) : ℝ := jsMod (jsMod r 360 + 360) 360

/-- The reduced angular difference (lines 118–119): the absolute difference of
the two normalized rotations, folded into `[0, 180]`. -/
noncomputable def rotationDiff (camRot idealRot : ℝ) : ℝ :=
  let diff := |norm360 camRot - norm360 idealRot|
  if diff > 180 then 360 - diff else diff

/-- The composition band if-chain on the reduced difference (lines 121–123). -/
noncomputable def compositionLabel (diff : ℝ) : String :=
  if diff > 10 ∧ diff ≤ 35 then "Rule of Thirds (Subject Off-Center)"
  else if diff > 35 then "Subject on Edge of Frame / Looking Past Subject"
  else "Subject Centered"

/-- The composition label from actual and ideal rotation (lines 116–123). -/
noncomputable def compositionOf (camRot idealRot : ℝ) : String :=
  compositionLabel (rotationDiff camRot idealRot)

/-- The composition label of a full camera state (lines 105–123). -/
noncomputable def compositionAt (x y rotation : ℝ) : String :=
  compositionOf rotation (idealRotDeg x y)

/-! Arithmetic facts about the JavaScript remainder, used to evaluate the
normalization on concrete rotations. -/

/-- `a % 360 = a` for `a ∈ [0, 360)`. -/
theorem jsMod_eq_self {a : ℝ} (h0 : 0 ≤ a) (h1 : a < 360) : jsMod a 360 = a := by
  have hq0 : 0 ≤ a / 360 := div_nonneg h0 (by norm_num)
  have hq1 : a / 360 < 1 := by
    rw [div_lt_one (by norm_num)]
    exact h1
  have ht : jsTrunc (a / 360) = 0 := by
    rw [jsTrunc, if_pos hq0, Int.floor_eq_zero_iff]
    exact Set.mem_Ico.mpr ⟨hq0, hq1⟩
  simp [jsMod, ht]

/-- `(a + 360) % 360 = a` for `a ∈ [0, 360)`. -/
theorem jsMod_add_360 {a : ℝ} (h0 : 0 ≤ a) (h1 : a < 360) :
    jsMod (a + 360) 360 = a := by
  have hrw : (a + 360) / 360 = a / 360 + 1 := by ring
  have hq0 : 0 ≤ a / 360 := div_nonneg h0 (by norm_num)
  have hq1 : a / 360 < 1 := by
    rw [div_lt_one (by norm_num)]
    exact h1
  have ht : jsTrunc ((a + 360) / 360) = 1 := by
    rw [jsTrunc, if_pos (by linarith), hrw, Int.floor_add_one,
      Int.floor_eq_zero_iff.mpr (Set.mem_Ico.mpr ⟨hq0, hq1⟩)]
    norm_num
  rw [jsMod, ht]
  push_cast
  ring

/-- The normalization is the identity on `[0, 360)`. -/
theorem norm360_eq_self {a : ℝ} (h0 : 0 ≤ a) (h1 : a < 360) : norm360 a = a := by
  rw [norm360, jsMod_eq_self h0 h1, jsMod_add_360 h0 h1]

/-! ## Theorems: lens bands and composition -/

/-- C5: the lens/shot/physics triple depends on a camera position only through
its planar distance from the subject — equal distances give equal triples —
and band membership partitions the clamped distance by the ordered thresholds
12, 25, 45, 65. -/
theorem lens_band_pure_function_of_distance :
    (∀ x₁ y₁ x₂ y₂ : ℝ, distRaw x₁ y₁ = distRaw x₂ y₂ →
      cameraLens x₁ y₁ = cameraLens x₂ y₂) ∧
    (∀ x y : ℝ, cameraLens x y = lensTriple (min (distRaw x y) 100)) ∧
    (∀ d : ℝ,
      (d < 12 → lensTriple d = ultraWideTriple) ∧
      (12 ≤ d → d < 25 → lensTriple d = wideAngleTriple) ∧
      (25 ≤ d → d < 45 → lensTriple d = primeLensTriple) ∧
      (45 ≤ d → d < 65 → lensTriple d = portraitTelephotoTriple) ∧
      (65 ≤ d → lensTriple d = longTelephotoTriple)) := by
  refine ⟨?_, fun x y => rfl, ?_⟩
  · intro x₁ y₁ x₂ y₂ h
    rw [cameraLens, cameraLens, cameraDistance, cameraDistance, h]
  · intro d
    refine ⟨fun h => ?_, fun h1 h2 => ?_, fun h1 h2 => ?_, fun h1 h2 => ?_, fun h => ?_⟩
    · rw [lensTriple, if_pos h]
    · rw [lensTriple, if_neg (by linarith), if_pos h2]
    · rw [lensTriple, if_neg (by linarith), if_neg (by linarith), if_pos h2]
    · rw [lensTriple, if_neg (by linarith), if_neg (by linarith),
        if_neg (by linarith), if_pos h2]
    · rw [lensTriple, if_neg (by linarith), if_neg (by linarith),
        if_neg (by linarith), if_neg (by linarith)]

/-- Witness for `lens_band_pure_function_of_distance`: the positions
`(50, 60)` and `(60, 50)` are both at distance 10 from the subject and get
the same triple. -/
theorem lens_band_pure_function_of_distance_witness :
    cameraLens 50 60 = cameraLens 60 50 :=
  lens_band_pure_function_of_distance.1 50 60 60 50 (by norm_num [distRaw])

/-- C4: the composition classification is symmetric under angular wraparound —
normalized rotations whose raw difference is 350° are classified exactly like
ones whose raw difference is 10°, the reduced difference lying in `[0, 180]` —
and the reduced difference maps to the three bands Subject Centered (≤ 10°),
Rule of Thirds (between 10° and 35°), Subject on Edge of Frame (> 35°). -/
theorem composition_wraparound_bands :
    (∀ a b c d : ℝ, 0 ≤ a → a < 360 → 0 ≤ b → b < 360 →
      0 ≤ c → c < 360 → 0 ≤ d → d < 360 →
      |a - b| = 350 → |c - d| = 10 →
      compositionOf a b = compositionOf c d) ∧
    (∀ a b : ℝ, 0 ≤ a → a < 360 → 0 ≤ b → b < 360 →
      0 ≤ rotationDiff a b ∧ rotationDiff a b ≤ 180) ∧
    (∀ a b : ℝ,
      (rotationDiff a b ≤ 10 → compositionOf a b = "Subject Centered") ∧
      (10 < rotationDiff a b → rotationDiff a b ≤ 35 →
        compositionOf a b = "Rule of Thirds (Subject Off-Center)") ∧
      (35 < rotationDiff a b →
        compositionOf a b = "Subject on Edge of Frame / Looking Past Subject")) := by
  refine ⟨?_, ?_, ?_⟩
  · intro a b c d ha0 ha1 hb0 hb1 hc0 hc1 hd0 hd1 hab hcd
    have h1 : rotationDiff a b = 10 := by
      rw [rotationDiff, norm360_eq_self ha0 ha1, norm360_eq_self hb0 hb1, hab]
      norm_num
    have h2 : rotationDiff c d = 10 := by
      rw [rotationDiff, norm360_eq_self hc0 hc1, norm360_eq_self hd0 hd1, hcd]
      norm_num
    rw [compositionOf, compositionOf, h1, h2]
  · intro a b ha0 ha1 hb0 hb1
    have habs : |a - b| < 360 := abs_lt.mpr ⟨by linarith, by linarith⟩
    have habs0 : 0 ≤ |a - b| := abs_nonneg _
    rw [rotationDiff, norm360_eq_self ha0 ha1, norm360_eq_self hb0 hb1]
    split_ifs with h
    · constructor <;> linarith
    · constructor <;> linarith
  · intro a b
    refine ⟨fun h => ?_, fun h1 h2 => ?_, fun h => ?_⟩
    · have c1 : ¬(rotationDiff a b > 10 ∧ rotationDiff a b ≤ 35) := by
        rintro ⟨hc, -⟩; linarith
      have c2 : ¬(rotationDiff a b > 35) := by linarith
      rw [compositionOf, compositionLabel, if_neg c1, if_neg c2]
    · rw [compositionOf, compositionLabel, if_pos ⟨h1, h2⟩]
    · have c1 : ¬(rotationDiff a b > 10 ∧ rotationDiff a b ≤ 35) := by
        rintro ⟨-, hc⟩; linarith
      rw [compositionOf, compositionLabel, if_neg c1, if_pos h]

/-- Witness for `composition_wraparound_bands`: rotations 355° vs 5° (raw
difference 350°) are classified exactly like 15° vs 5° (raw difference 10°). -/
theorem composition_wraparound_bands_witness :
    compositionOf 355 5 = compositionOf 15 5 :=
  composition_wraparound_bands.1 355 5 15 5 (by norm_num) (by norm_num)
    (by norm_num) (by norm_num) (by norm_num) (by norm_num) (by norm_num)
    (by norm_num) (by norm_num) (by norm_num)

/-! ## Theorems: azimuth classification -/

/-- The code's value at the boundary angle 45°. -/
theorem viewSideOfAngle_at_45 : viewSideOfAngle 45 = "Right Side Profile" := by
  rw [viewSideOfAngle, if_neg (by norm_num), if_neg (by norm_num),
    if_neg (by norm_num)]

/-- The code's value at the boundary angle −45°. -/
theorem viewSideOfAngle_at_neg45 : viewSideOfAngle (-45) = "Right Side Profile" := by
  rw [viewSideOfAngle, if_neg (by norm_num), if_neg (by norm_num),
    if_neg (by norm_num)]

/-- The code's value at the boundary angle 135°. -/
theorem viewSideOfAngle_at_135 : viewSideOfAngle 135 = "Left Side Profile" := by
  rw [viewSideOfAngle, if_neg (by norm_num), if_pos (by norm_num)]

/-- The code's value at the boundary angle −135°. -/
theorem viewSideOfAngle_at_neg135 : viewSideOfAngle (-135) = "Left Side Profile" := by
  rw [viewSideOfAngle, if_neg (by norm_num), if_pos (by norm_num)]

/-- Counterexample to C3's boundary rule.  On the floor plan (screen y grows
downward) moving clockwise around the subject traverses the bands
Right (−45°..45°), Front (45°..135°), Left (135°..−135°), Back (−135°..−45°)
in order of increasing angle.  "Boundaries belong to the next clockwise
label" therefore predicts 45° ↦ Front View and −135° ↦ Back View; the code
maps both 45° and −45° to "Right Side Profile" and both 135° and −135° to
"Left Side Profile", so no single rotational direction explains all four
boundaries: 45° resolves against the clockwise rule while 135° follows it. -/
theorem azimuth_boundary_counterexample :
    viewSideOfAngle 45 = "Right Side Profile" ∧
    "Right Side Profile" ≠ "Front View" ∧
    viewSideOfAngle (-135) = "Left Side Profile" ∧
    "Left Side Profile" ≠ "Back View" ∧
    viewSideOfAngle 135 = "Left Side Profile" ∧
    "Left Side Profile" ≠ "Front View" ∧
    viewSideOfAngle (-45) = "Right Side Profile" :=
  ⟨viewSideOfAngle_at_45, by decide, viewSideOfAngle_at_neg135, by decide,
    viewSideOfAngle_at_135, by decide, viewSideOfAngle_at_neg45⟩

/-- C3 amended: the azimuth classification is a total, exhaustive partition —
every camera position other than the subject gets exactly one of the four side
labels (which are pairwise distinct) — and each boundary angle resolves
deterministically to the adjacent side-profile band: 45° and −45° to
Right Side Profile, 135° and −135° to Left Side Profile (the front/back bands
are open, the side-profile bands closed), rather than uniformly to the next
clockwise label. -/
theorem azimuth_partition_amended (x y : ℝ) (_h : ¬(x = 50 ∧ y = 50)) :
    (viewSideOf x y = "Front View" ∨ viewSideOf x y = "Right Side Profile" ∨
      viewSideOf x y = "Back View" ∨ viewSideOf x y = "Left Side Profile") ∧
    (["Front View", "Right Side Profile", "Back View", "Left Side Profile"]
      : List String).Pairwise (fun s t => s ≠ t) ∧
    viewSideOfAngle 45 = "Right Side Profile" ∧
    viewSideOfAngle (-45) = "Right Side Profile" ∧
    viewSideOfAngle 135 = "Left Side Profile" ∧
    viewSideOfAngle (-135) = "Left Side Profile" := by
  refine ⟨?_, by decide, viewSideOfAngle_at_45, viewSideOfAngle_at_neg45,
    viewSideOfAngle_at_135, viewSideOfAngle_at_neg135⟩
  rw [viewSideOf, viewSideOfAngle]
  split_ifs <;> simp

/-- Witness for `azimuth_partition_amended` at the concrete position
`(60, 80)`. -/
theorem azimuth_partition_amended_witness :
    (viewSideOf 60 80 = "Front View" ∨ viewSideOf 60 80 = "Right Side Profile" ∨
      viewSideOf 60 80 = "Back View" ∨ viewSideOf 60 80 = "Left Side Profile") ∧
    (["Front View", "Right Side Profile", "Back View", "Left Side Profile"]
      : List String).Pairwise (fun s t => s ≠ t) ∧
    viewSideOfAngle 45 = "Right Side Profile" ∧
    viewSideOfAngle (-45) = "Right Side Profile" ∧
    viewSideOfAngle 135 = "Left Side Profile" ∧
    viewSideOfAngle (-135) = "Left Side Profile" :=
  azimuth_partition_amended 60 80 (by norm_num)

/-! ## Theorems: the concrete camera scenario -/

/-- C6: for the camera state `x = 50`, `y = 95`, `height = 50`, `rotation = 0`
the translator computes distance exactly 45 (the 85mm band boundary), assigns
the "85mm Portrait Telephoto" lens band, labels the position "Front View"
(camera directly below the subject), and classifies the composition
"Subject Centered" (the actual rotation 0 equals the ideal rotation aiming
from `(50, 95)` at the subject). -/
theorem camera_50_95_concrete :
    cameraDistance 50 95 = 45 ∧
    cameraLens 50 95 = portraitTelephotoTriple ∧
    (cameraLens 50 95).1 = "85mm Portrait Telephoto Lens" ∧
    viewSideOf 50 95 = "Front View" ∧
    compositionAt 50 95 0 = "Subject Centered" := by
  have hdist : distRaw 50 95 = 45 := by
    rw [distRaw,
      show ((50:ℝ) - 50) * ((50:ℝ) - 50) + ((95:ℝ) - 50) * ((95:ℝ) - 50) = 45 ^ 2
        from by norm_num,
      Real.sqrt_sq (by norm_num : (0:ℝ) ≤ 45)]
  have hcd : cameraDistance 50 95 = 45 := by
    rw [cameraDistance, hdist, min_eq_left (by norm_num)]
  have hlens : cameraLens 50 95 = portraitTelephotoTriple := by
    rw [cameraLens, hcd, lensTriple, if_neg (by norm_num), if_neg (by norm_num),
      if_neg (by norm_num), if_pos (by norm_num)]
  have harg : Complex.arg ⟨(0:ℝ), (45:ℝ)⟩ = Real.pi / 2 := by
    rw [Complex.arg_eq_pi_div_two_iff]
    exact ⟨rfl, by show (0:ℝ) < 45; norm_num⟩
  have hangle : angleDeg 50 95 = 90 := by
    rw [angleDeg, show ((95:ℝ) - 50) = 45 from by norm_num,
      show ((50:ℝ) - 50) = 0 from by norm_num, atan2, harg]
    field_simp
    ring
  have hview : viewSideOf 50 95 = "Front View" := by
    rw [viewSideOf, hangle, viewSideOfAngle, if_pos (by norm_num)]
  have harg2 : Complex.arg ⟨(0:ℝ), (-45:ℝ)⟩ = -(Real.pi / 2) := by
    rw [Complex.arg_eq_neg_pi_div_two_iff]
    exact ⟨rfl, by show (-45:ℝ) < 0; norm_num⟩
  have hideal : idealRotDeg 50 95 = 0 := by
    rw [idealRotDeg, show ((50:ℝ) - 95) = -45 from by norm_num,
      show ((50:ℝ) - 50) = 0 from by norm_num, atan2, harg2]
    field_simp
    ring
  have hnorm : norm360 0 = 0 := norm360_eq_self le_rfl (by norm_num)
  have hrd : rotationDiff 0 0 = 0 := by
    rw [rotationDiff, hnorm]
    norm_num
  have hcomp : compositionAt 50 95 0 = "Subject Centered" := by
    rw [compositionAt, hideal, compositionOf, hrd, compositionLabel,
      if_neg (by norm_num), if_neg (by norm_num)]
  exact ⟨hcd, hlens, by rw [hlens]; rfl, hview, hcomp⟩
